import Mathlib

/-!
Shallow embedding of the `gstat-core` crate (error model, parser shims,
protocol lifecycle and the `Game::fetch` orchestration), with theorems
checking the natural-language specification against the code.

Conventions of the embedding:
* Rust `Result<T, E>` becomes `Except E T`.
* `Vec<u8>` becomes `List Nat` (byte values; their range plays no role in
  the verified properties, the bytes are an opaque payload).
* Async methods are modelled as plain functions: every claim concerns the
  sequential composition of their results, which an `await`-chain performs.
* Rust `Debug` rendering of a payload `E` is an explicit formatter
  `dbgE : E → String` supplied at the point `Debug` output is formed.
-/

namespace Gstat

/-- Byte vectors (`Vec<u8>`). -/
abbrev Bytes := List Nat

/-- Model of `std::io::Cursor<Vec<u8>>`: an owned byte buffer with a read position. -/
structure Cursor where
  inner : Bytes
  pos : Nat
deriving Repr, DecidableEq

/- ===================== error.rs ===================== -/

/-- Struct `ErrorDetail<E>` from `error.rs`: an error message plus optional data. -/
structure ErrorDetail (E : Type) where
  message : String
  inner : Option E
deriving Repr

/-- Constructor `ErrorDetail::new(message, inner)` from `error.rs` lines 23-28. -/
def ErrorDetail.new {E : Type} (message : String) (inner : Option E) : ErrorDetail E :=
  { message := message, inner := inner }

/-- Method `ErrorDetail::display` from `error.rs` lines 36-38:
`write!(f, "[GSTAT ERROR ({}): {}", category, self.message)`. -/
def ErrorDetail.display {E : Type} (d : ErrorDetail E) (category : String) : String :=
  "[GSTAT ERROR (" ++ category ++ "): " ++ d.message

/-- Enum `Error<E>` from `error.rs` lines 44-55: five variants, each carrying an
`ErrorDetail<E>`. -/
inductive Error (E : Type) where
  | GameError (detail : ErrorDetail E)
  | ParserError (detail : ErrorDetail E)
  | ProtocolError (detail : ErrorDetail E)
  | QueryError (detail : ErrorDetail E)
  | ResponseError (detail : ErrorDetail E)
deriving Repr

/-- The `Display` impl for `Error<E>` from `error.rs` lines 57-68: dispatch
each variant to `ErrorDetail::display` with its category string. -/
def Error.fmtDisplay {E : Type} : Error E → String
  | .GameError detail => detail.display "Game"
  | .ParserError detail => detail.display "Parser"
  | .ProtocolError detail => detail.display "Protocol"
  | .QueryError detail => detail.display "Query"
  | .ResponseError detail => detail.display "Response"

/-- The backslash character, written numerically to keep escape sequences
out of the definitions below. -/
def backslashChar : Char := Char.ofNat 92

/-- The double-quote character. -/
def quoteChar : Char := Char.ofNat 34

/-- Model of `char::escape_debug` as the `Debug` impl for `str` uses it
(double quotes escaped, single quotes not). The special cases `\0`, `\t`,
`\r`, `\n`, `\\` and `\"` are exact; printable ASCII characters render as
themselves (exact); the remaining ASCII control characters render as a Rust
`\u` escape with lowercase hex digits (exact). Characters beyond ASCII
render as themselves, which matches Rust for printable characters and
diverges for non-printable or grapheme-extended ones (Rust escapes those
with `\u`; deciding that class needs the Unicode tables, and no claim's
statement involves such characters). -/
def rustEscapeDebugChar (c : Char) : List Char :=
  if c.toNat = 0 then [backslashChar, '0']
  else if c.toNat = 9 then [backslashChar, 't']
  else if c.toNat = 13 then [backslashChar, 'r']
  else if c.toNat = 10 then [backslashChar, 'n']
  else if c = backslashChar then [backslashChar, backslashChar]
  else if c = quoteChar then [backslashChar, quoteChar]
  else if 32 ≤ c.toNat && c.toNat ≤ 126 then [c]
  else if c.toNat < 32 then
    [backslashChar, 'u', Char.ofNat 123] ++ Nat.toDigits 16 c.toNat ++ [Char.ofNat 125]
  else [c]

/-- The character sequence Rust `Debug` emits for the text of a string
(everything between the surrounding quotes). -/
def rustEscapeDebug (s : String) : List Char :=
  s.data.flatMap rustEscapeDebugChar

/-- Rust `Debug` rendering of a `String`: the escaped text surrounded by
double quotes. -/
def rustDebugStr (s : String) : String :=
  "\"" ++ String.mk (rustEscapeDebug s) ++ "\""

/-- Rust `Debug` rendering of an `Option<E>`, given a formatter for `E`. -/
def rustDebugOption {E : Type} (dbgE : E → String) : Option E → String
  | some x => "Some(" ++ dbgE x ++ ")"
  | none => "None"

/-- Rust `debug_struct(name).field("message", ..).field("inner", ..).finish()`
as produced by the `Debug` impl for `Error<E>` (`error.rs` lines 70-105),
for one variant with struct name `name` and detail `d`. -/
def debugStructDetail {E : Type} (dbgE : E → String) (name : String)
    (d : ErrorDetail E) : String :=
  name ++ " \x7b message: " ++ rustDebugStr d.message ++ ", inner: " ++
    rustDebugOption dbgE d.inner ++ " \x7d"

/-- The `Debug` impl for `Error<E>` from `error.rs` lines 70-105. -/
def Error.fmtDebug {E : Type} (dbgE : E → String) : Error E → String
  | .GameError detail => debugStructDetail dbgE "GameError" detail
  | .ParserError detail => debugStructDetail dbgE "ParserError" detail
  | .ProtocolError detail => debugStructDetail dbgE "ProtocolError" detail
  | .QueryError detail => debugStructDetail dbgE "QueryError" detail
  | .ResponseError detail => debugStructDetail dbgE "ResponseError" detail

/- ===================== standards/parser.rs ===================== -/

namespace Standards

/-- The `Parser` trait of `standards/parser.rs`: an implementation supplies
the two required methods `_serialize_query` and `_deserialize_response`
(the byte-level grammar); the trait's provided methods wrap their errors. -/
structure Parser (Q R SE DE : Type) where
  _serialize_query : Q → Except SE Bytes
  _deserialize_response : Cursor → Except DE R

/-- Method `Parser::serialize_query` from `standards/parser.rs` lines 34-38:
`self._serialize_query(query).map_err(|err| Error::ParserError(
ErrorDetail::new("Failed to serialize query", Some(err))))`. -/
def Parser.serialize_query {Q R SE DE : Type} (p : Parser Q R SE DE)
    (query : Q) : Except (Error SE) Bytes :=
  match p._serialize_query query with
  | .ok v => .ok v
  | .error err =>
      .error (Error.ParserError (ErrorDetail.new "Failed to serialize query" (some err)))

/-- Method `Parser::deserialize_response` from `standards/parser.rs` lines 61-68:
`self._deserialize_response(data).map_err(|err| Error::ParserError(
ErrorDetail::new("Failed to deserialize response", Some(err))))`. -/
def Parser.deserialize_response {Q R SE DE : Type} (p : Parser Q R SE DE)
    (data : Cursor) : Except (Error DE) R :=
  match p._deserialize_response data with
  | .ok r => .ok r
  | .error err =>
      .error (Error.ParserError (ErrorDetail.new "Failed to deserialize response" (some err)))

end Standards

/- ===================== traits/parser.rs ===================== -/

namespace Traits

/-- The `Parser` trait of `traits/parser.rs` (the async draft): same two
required methods, async and taking the query by value. -/
structure Parser (Q R SE DE : Type) where
  _serialize_query : Q → Except SE Bytes
  _deserialize_response : Cursor → Except DE R

/-- Method `Parser::serialize_query` from `traits/parser.rs` lines 34-42:
`self._serialize_query(query).await.map_err(|err| Error::ParserError(
ErrorDetail::new("Failed to serialize query", Some(err))))`. -/
def Parser.serialize_query {Q R SE DE : Type} (p : Parser Q R SE DE)
    (query : Q) : Except (Error SE) Bytes :=
  match p._serialize_query query with
  | .ok v => .ok v
  | .error err =>
      .error (Error.ParserError (ErrorDetail.new "Failed to serialize query" (some err)))

/-- Method `Parser::deserialize_response` from `traits/parser.rs` lines 68-79. -/
def Parser.deserialize_response {Q R SE DE : Type} (p : Parser Q R SE DE)
    (data : Cursor) : Except (Error DE) R :=
  match p._deserialize_response data with
  | .ok r => .ok r
  | .error err =>
      .error (Error.ParserError (ErrorDetail.new "Failed to deserialize response" (some err)))

end Traits

/- ============ standards/protocol.rs and standards/game.rs ============ -/

/-- The four lifecycle operations of the `Protocol` trait
(`standards/protocol.rs`), used as observation labels to record which
operations `Game::fetch` invokes and in which order. -/
inductive Step where
  | connect
  | sendQuery
  | receiveResponse
  | disconnect
deriving Repr, DecidableEq

/-- A `Protocol` implementation (`standards/protocol.rs`), as `Game::fetch`
uses it: the outcomes of the four lifecycle operations. `A` is the address
type (`SocketAddr`), `Q`/`R` the query/response associated types, `E` the
protocol's error payload type. The raw `send`/`receive` operations are not
invoked by `Game::fetch` and are omitted. -/
structure Protocol (Q R E A : Type) where
  connect : A → Except (Error E) Unit
  send_query : Q → Except (Error E) Unit
  receive_response : Except (Error E) R
  disconnect : Except (Error E) Unit

/-- The `Game` trait (`standards/game.rs`): `_protocol` supplies a fresh
protocol instance for `fetch`. -/
structure Game (Q R E A : Type) where
  _protocol : Protocol Q R E A

/-- Method `Game::fetch` from `standards/game.rs` lines 48-58, instrumented with a
trace of the lifecycle operations invoked (in invocation order):

```
let protocol = self._protocol();
protocol.connect(address).await?;
protocol.send_query(query).await?;
let response = protocol.receive_response().await?;
protocol.disconnect().await?;
Ok(response)
```

Each `?` short-circuits, returning the step's error unchanged. -/
def Game.fetch {Q R E A : Type} (g : Game Q R E A) (query : Q) (address : A) :
    Except (Error E) R × List Step :=
  let protocol := g._protocol
  match protocol.connect address with
  | .error e => (.error e, [Step.connect])
  | .ok _ =>
    match protocol.send_query query with
    | .error e => (.error e, [Step.connect, Step.sendQuery])
    | .ok _ =>
      match protocol.receive_response with
      | .error e => (.error e, [Step.connect, Step.sendQuery, Step.receiveResponse])
      | .ok response =>
        match protocol.disconnect with
        | .error e =>
            (.error e, [Step.connect, Step.sendQuery, Step.receiveResponse, Step.disconnect])
        | .ok _ =>
            (.ok response, [Step.connect, Step.sendQuery, Step.receiveResponse, Step.disconnect])

/- ======== concrete stub instances used by witnesses and counterexamples ======== -/

/-- A connect failure used as a concrete error value. -/
def connErr : Error Nat := .ProtocolError (.new "connect failed" none)

/-- A receive_response failure used as a concrete error value. -/
def recvErr : Error Nat := .ProtocolError (.new "receive failed" none)

/-- A disconnect failure used as a concrete error value. -/
def discErr : Error Nat := .ProtocolError (.new "disconnect failed" none)

/-- Stub game whose protocol fails at `connect` and would succeed elsewhere. -/
def gameConnFails : Game Unit Nat Nat Unit :=
  ⟨⟨fun _ => .error connErr, fun _ => .ok (), .ok 7, .ok ()⟩⟩

/-- Stub game whose protocol succeeds at `connect` and `send_query`, fails at
`receive_response`, and whose `disconnect` would itself also fail. -/
def gameRecvFails : Game Unit Nat Nat Unit :=
  ⟨⟨fun _ => .ok (), fun _ => .ok (), .error recvErr, .error discErr⟩⟩

/-- Stub game whose protocol succeeds everywhere; `receive_response` yields 7. -/
def gameAllOk : Game Unit Nat Nat Unit :=
  ⟨⟨fun _ => .ok (), fun _ => .ok (), .ok 7, .ok ()⟩⟩

/-- Stub game whose protocol succeeds up to `receive_response` (yielding 7)
and fails at `disconnect`. -/
def gameDiscFails : Game Unit Nat Nat Unit :=
  ⟨⟨fun _ => .ok (), fun _ => .ok (), .ok 7, .error discErr⟩⟩

/-- Stub standards parser whose raw methods fail with payloads 5 and 9. -/
def sParserFails : Standards.Parser Unit Nat Nat Nat :=
  ⟨fun _ => .error 5, fun _ => .error 9⟩

/-- Stub standards parser whose raw methods succeed. -/
def sParserOk : Standards.Parser Unit Nat Nat Nat :=
  ⟨fun _ => .ok [1, 2, 3], fun _ => .ok 7⟩

/-- Stub traits parser with the same raw outcomes as `sParserFails`. -/
def tParserFails : Traits.Parser Unit Nat Nat Nat :=
  ⟨fun _ => .error 5, fun _ => .error 9⟩

/-- An `Error Nat` value with a present inner payload, for the display
counterexample; the payload 42 has Rust debug rendering "42". -/
def errWithInner : Error Nat := .GameError (.new "boom" (some 42))

end Gstat

/- ===================== helper lemmas ===================== -/

open Gstat

/-- The escaped rendering of the message text is an infix of the debug
rendering of a variant. -/
lemma message_infix_debugStructDetail {E : Type} (dbgE : E → String)
    (name : String) (d : ErrorDetail E) :
    rustEscapeDebug d.message <:+: (debugStructDetail dbgE name d).data := by
  refine ⟨(name ++ " \x7b message: " ++ "\"").data,
    ("\"" ++ ", inner: " ++ rustDebugOption dbgE d.inner ++ " \x7d").data, ?_⟩
  simp [debugStructDetail, rustDebugStr, String.data_append, List.append_assoc]

/-- A character-wise flat map by a function that fixes every character of
the list leaves the list unchanged. -/
lemma bind_eq_self_of_fixes {α : Type} (f : α → List α) :
    ∀ l : List α, (∀ c ∈ l, f c = [c]) → l.flatMap f = l := by
  intro l h
  induction l with
  | nil => rfl
  | cons a t ih =>
    rw [List.flatMap_cons, h a (List.mem_cons_self a t),
      ih (fun c hc => h c (List.mem_cons_of_mem a hc))]
    rfl

/-- A message none of whose characters Rust Debug escapes renders as
itself. -/
lemma rustEscapeDebug_eq_self (msg : String)
    (h : ∀ c ∈ msg.data, rustEscapeDebugChar c = [c]) :
    rustEscapeDebug msg = msg.data :=
  bind_eq_self_of_fixes rustEscapeDebugChar msg.data h

/-- The inner payload rendering is an infix of the debug rendering. -/
lemma inner_infix_debugStructDetail {E : Type} (dbgE : E → String)
    (name : String) (d : ErrorDetail E) :
    (rustDebugOption dbgE d.inner).data <:+: (debugStructDetail dbgE name d).data := by
  refine ⟨(name ++ " \x7b message: " ++ rustDebugStr d.message ++ ", inner: ").data,
    (" \x7d").data, ?_⟩
  simp [debugStructDetail, rustDebugStr, String.data_append, List.append_assoc]

/- ===================== claim theorems ===================== -/

/-- C2: if the protocol stub's `connect` returns an error `e`, `Game::fetch`
returns exactly `e` unchanged, and none of `send_query`, `receive_response`
or `disconnect` is invoked (the invocation trace is just `[connect]`). -/
theorem fetch_connect_error_short_circuits {Q R E A : Type}
    (g : Game Q R E A) (query : Q) (address : A) (e : Error E)
    (h : g._protocol.connect address = .error e) :
    g.fetch query address = (.error e, [Step.connect]) := by
  simp [Game.fetch, h]

/-- Witness for C2 on the concrete stub `gameConnFails`. -/
theorem fetch_connect_error_short_circuits_wit :
    (gameConnFails.fetch () ()) = (.error connErr, [Step.connect]) :=
  fetch_connect_error_short_circuits gameConnFails () () connErr rfl

/-- C3: if the protocol stub's `connect`, `send_query` and `disconnect`
always succeed and `receive_response` returns `R0`, then `fetch` returns
`Ok(R0)` and the four lifecycle operations are invoked exactly once each,
strictly in the order connect, send_query, receive_response, disconnect
(the invocation trace is exactly that four-element sequence). -/
theorem fetch_success_ok_and_ordered {Q R E A : Type}
    (g : Game Q R E A) (query : Q) (address : A) (R0 : R)
    (hc : ∀ a, g._protocol.connect a = .ok ())
    (hs : ∀ q, g._protocol.send_query q = .ok ())
    (hr : g._protocol.receive_response = .ok R0)
    (hd : g._protocol.disconnect = .ok ()) :
    g.fetch query address =
      (.ok R0, [Step.connect, Step.sendQuery, Step.receiveResponse, Step.disconnect]) := by
  simp [Game.fetch, hc, hs, hr, hd]

/-- Witness for C3 on the concrete stub `gameAllOk`. -/
theorem fetch_success_ok_and_ordered_wit :
    (gameAllOk.fetch () ()) =
      (.ok 7, [Step.connect, Step.sendQuery, Step.receiveResponse, Step.disconnect]) :=
  fetch_success_ok_and_ordered gameAllOk () () 7
    (fun _ => rfl) (fun _ => rfl) rfl rfl

/-- C1 counterexample: on a stub whose `connect` and `send_query` succeed and
whose `receive_response` fails with `recvErr` (and whose `disconnect` would
itself fail), `Game::fetch` does return the `receive_response` error, but it
does NOT invoke `disconnect`: the `?` operator short-circuits, so the claimed
best-effort cleanup does not happen. -/
theorem fetch_receive_error_skips_disconnect_cex :
    (gameRecvFails.fetch () ()).1 = .error recvErr ∧
    Step.disconnect ∉ (gameRecvFails.fetch () ()).2 := by
  constructor
  · rfl
  · decide

/-- C1 amended: if `connect` and `send_query` succeed and `receive_response`
fails with `e`, `Game::fetch` returns `e` unchanged (never a disconnect
error), but `disconnect` is not invoked: the trace stops at
`receive_response`. -/
theorem fetch_receive_error_skips_disconnect {Q R E A : Type}
    (g : Game Q R E A) (query : Q) (address : A) (e : Error E)
    (hc : g._protocol.connect address = .ok ())
    (hs : g._protocol.send_query query = .ok ())
    (hr : g._protocol.receive_response = .error e) :
    g.fetch query address =
      (.error e, [Step.connect, Step.sendQuery, Step.receiveResponse]) ∧
    Step.disconnect ∉ (g.fetch query address).2 := by
  have hfetch : g.fetch query address =
      (.error e, [Step.connect, Step.sendQuery, Step.receiveResponse]) := by
    simp [Game.fetch, hc, hs, hr]
  refine ⟨hfetch, ?_⟩
  rw [hfetch]
  show Step.disconnect ∉ [Step.connect, Step.sendQuery, Step.receiveResponse]
  decide

/-- Witness for the amended C1 on the concrete stub `gameRecvFails`. -/
theorem fetch_receive_error_skips_disconnect_wit :
    gameRecvFails.fetch () () =
      (.error recvErr, [Step.connect, Step.sendQuery, Step.receiveResponse]) ∧
    Step.disconnect ∉ (gameRecvFails.fetch () ()).2 :=
  fetch_receive_error_skips_disconnect gameRecvFails () () recvErr rfl rfl rfl

/-- C10: if `connect`, `send_query` and `receive_response` succeed (yielding
`R0`) but `disconnect` fails with `e`, `Game::fetch` returns `Err(e)` and the
received `R0` is discarded: the result is never `Ok`. -/
theorem fetch_disconnect_error_discards_response {Q R E A : Type}
    (g : Game Q R E A) (query : Q) (address : A) (R0 : R) (e : Error E)
    (hc : g._protocol.connect address = .ok ())
    (hs : g._protocol.send_query query = .ok ())
    (hr : g._protocol.receive_response = .ok R0)
    (hd : g._protocol.disconnect = .error e) :
    g.fetch query address =
      (.error e, [Step.connect, Step.sendQuery, Step.receiveResponse, Step.disconnect]) ∧
    ∀ r : R, (g.fetch query address).1 ≠ .ok r := by
  have hfetch : g.fetch query address =
      (.error e, [Step.connect, Step.sendQuery, Step.receiveResponse, Step.disconnect]) := by
    simp [Game.fetch, hc, hs, hr, hd]
  refine ⟨hfetch, fun r => ?_⟩
  rw [hfetch]
  intro hcontra
  exact Except.noConfusion hcontra

/-- Witness for C10 on the concrete stub `gameDiscFails`. -/
theorem fetch_disconnect_error_discards_response_wit :
    gameDiscFails.fetch () () =
      (.error discErr, [Step.connect, Step.sendQuery, Step.receiveResponse, Step.disconnect]) ∧
    ∀ r : Nat, (gameDiscFails.fetch () ()).1 ≠ .ok r :=
  fetch_disconnect_error_discards_response gameDiscFails () () 7 discErr rfl rfl rfl rfl

/-- C4: `Parser::serialize_query` (standards draft) wraps a failing
`_serialize_query` outcome `E0` as `ParserError` with message
"Failed to serialize query" and inner `Some(E0)`, and passes a successful
byte vector through unchanged. -/
theorem serialize_query_wraps_error {Q R SE DE : Type}
    (p : Standards.Parser Q R SE DE) (q : Q) :
    (∀ E0 : SE, p._serialize_query q = .error E0 →
      p.serialize_query q =
        .error (.ParserError (ErrorDetail.new "Failed to serialize query" (some E0)))) ∧
    (∀ v : Bytes, p._serialize_query q = .ok v → p.serialize_query q = .ok v) := by
  constructor
  · intro E0 h
    simp [Standards.Parser.serialize_query, h]
  · intro v h
    simp [Standards.Parser.serialize_query, h]

/-- Witness for C4 on the concrete stubs `sParserFails` and `sParserOk`. -/
theorem serialize_query_wraps_error_wit :
    sParserFails.serialize_query () =
      .error (.ParserError (ErrorDetail.new "Failed to serialize query" (some 5))) ∧
    sParserOk.serialize_query () = .ok [1, 2, 3] :=
  ⟨(serialize_query_wraps_error sParserFails ()).1 5 rfl,
   (serialize_query_wraps_error sParserOk ()).2 [1, 2, 3] rfl⟩

/-- C5: `Parser::deserialize_response` (standards draft) wraps a failing
`_deserialize_response` outcome `e` as `ParserError` with message
"Failed to deserialize response" and inner `Some(e)`, and passes a
successful `Response` through unchanged. -/
theorem deserialize_response_wraps_error {Q R SE DE : Type}
    (p : Standards.Parser Q R SE DE) (data : Cursor) :
    (∀ e : DE, p._deserialize_response data = .error e →
      p.deserialize_response data =
        .error (.ParserError (ErrorDetail.new "Failed to deserialize response" (some e)))) ∧
    (∀ r : R, p._deserialize_response data = .ok r → p.deserialize_response data = .ok r) := by
  constructor
  · intro e h
    simp [Standards.Parser.deserialize_response, h]
  · intro r h
    simp [Standards.Parser.deserialize_response, h]

/-- Witness for C5 on the concrete stubs `sParserFails` and `sParserOk`. -/
theorem deserialize_response_wraps_error_wit :
    sParserFails.deserialize_response ⟨[], 0⟩ =
      .error (.ParserError (ErrorDetail.new "Failed to deserialize response" (some 9))) ∧
    sParserOk.deserialize_response ⟨[], 0⟩ = .ok 7 :=
  ⟨(deserialize_response_wraps_error sParserFails ⟨[], 0⟩).1 9 rfl,
   (deserialize_response_wraps_error sParserOk ⟨[], 0⟩).2 7 rfl⟩


/-- C6: for every detail and every variant, the Display output begins with
the prefix "[GSTAT ERROR (<Category>):" where the category deterministically
matches the variant: GameError yields Game, ParserError yields Parser,
ProtocolError yields Protocol, QueryError yields Query, ResponseError
yields Response. -/
theorem display_category_matches_variant {E : Type} (d : ErrorDetail E) :
    ("[GSTAT ERROR (Game):").data <+: (Error.fmtDisplay (.GameError d)).data ∧
    ("[GSTAT ERROR (Parser):").data <+: (Error.fmtDisplay (.ParserError d)).data ∧
    ("[GSTAT ERROR (Protocol):").data <+: (Error.fmtDisplay (.ProtocolError d)).data ∧
    ("[GSTAT ERROR (Query):").data <+: (Error.fmtDisplay (.QueryError d)).data ∧
    ("[GSTAT ERROR (Response):").data <+: (Error.fmtDisplay (.ResponseError d)).data := by
  have hG : Error.fmtDisplay (Error.GameError d) = "[GSTAT ERROR (Game): " ++ d.message := rfl
  have hPa : Error.fmtDisplay (Error.ParserError d) = "[GSTAT ERROR (Parser): " ++ d.message := rfl
  have hPr : Error.fmtDisplay (Error.ProtocolError d) =
    "[GSTAT ERROR (Protocol): " ++ d.message := rfl
  have hQ : Error.fmtDisplay (Error.QueryError d) = "[GSTAT ERROR (Query): " ++ d.message := rfl
  have hR : Error.fmtDisplay (Error.ResponseError d) =
    "[GSTAT ERROR (Response): " ++ d.message := rfl
  refine ⟨?_, ?_, ?_, ?_, ?_⟩
  · rw [hG, String.data_append]
    exact List.IsPrefix.trans (by decide) (List.prefix_append _ _)
  · rw [hPa, String.data_append]
    exact List.IsPrefix.trans (by decide) (List.prefix_append _ _)
  · rw [hPr, String.data_append]
    exact List.IsPrefix.trans (by decide) (List.prefix_append _ _)
  · rw [hQ, String.data_append]
    exact List.IsPrefix.trans (by decide) (List.prefix_append _ _)
  · rw [hR, String.data_append]
    exact List.IsPrefix.trans (by decide) (List.prefix_append _ _)

/-- C7 counterexample: take the concrete value `errWithInner`, a `GameError`
with message "boom" and inner payload `Some 42` (whose Rust debug rendering
is "42"). The Display output is exactly "[GSTAT ERROR (Game): boom": the
inner payload's debug representation does not appear in the Display string
at all, contradicting the claim that it follows the message when present. -/
theorem display_omits_inner_cex :
    Error.fmtDisplay errWithInner = "[GSTAT ERROR (Game): boom" ∧
    ¬ (("42").data <:+: (Error.fmtDisplay errWithInner).data) ∧
    ¬ ((rustDebugOption (fun n : Nat => toString n) (some 42)).data <:+:
        (Error.fmtDisplay errWithInner).data) := by
  refine ⟨rfl, ?_, ?_⟩ <;> decide

/-- C7 amended: for every message and inner payload, the Display output of
each Error variant is exactly "[GSTAT ERROR (<Category>): <message>"; the
inner payload never appears in the Display output (it appears only in the
Debug output). -/
theorem display_exactly_category_message {E : Type} (msg : String) (inner : Option E) :
    Error.fmtDisplay (.GameError (ErrorDetail.new msg inner)) =
      "[GSTAT ERROR (Game): " ++ msg ∧
    Error.fmtDisplay (.ParserError (ErrorDetail.new msg inner)) =
      "[GSTAT ERROR (Parser): " ++ msg ∧
    Error.fmtDisplay (.ProtocolError (ErrorDetail.new msg inner)) =
      "[GSTAT ERROR (Protocol): " ++ msg ∧
    Error.fmtDisplay (.QueryError (ErrorDetail.new msg inner)) =
      "[GSTAT ERROR (Query): " ++ msg ∧
    Error.fmtDisplay (.ResponseError (ErrorDetail.new msg inner)) =
      "[GSTAT ERROR (Response): " ++ msg :=
  ⟨rfl, rfl, rfl, rfl, rfl⟩

/-- C8 counterexample: for the message a"b, which contains a double quote,
Rust Debug escapes the quote, so the Debug output of the wrapping Error
contains the escaped rendering (backslash before the quote) but NOT the
original message text, refuting the for-all-messages containment. -/
theorem errorDetail_new_preserving_cex :
    ¬ (("a\"b").data <:+:
        (Error.fmtDebug (fun n : Nat => toString n)
          (.GameError (ErrorDetail.new "a\"b" (some 42)))).data) ∧
    rustEscapeDebug "a\"b" <:+:
      (Error.fmtDebug (fun n : Nat => toString n)
        (.GameError (ErrorDetail.new "a\"b" (some 42)))).data := by
  constructor <;> decide

/-- C8 amended: ErrorDetail::new never fails (it is a total function) and
stores message and inner exactly as given; wrapping the detail in any of
the five Error variants preserves both: the Debug output of the Error
contains the Debug-escaped rendering of the message and the rendering of
the original inner payload, and it contains the original message text
itself whenever the message has no characters that Rust Debug escapes
(quotes, backslashes, control characters). -/
theorem errorDetail_new_total_preserving {E : Type} (dbgE : E → String)
    (msg : String) (inner : Option E) :
    (ErrorDetail.new msg inner).message = msg ∧
    (ErrorDetail.new msg inner).inner = inner ∧
    ((rustEscapeDebug msg <:+:
        (Error.fmtDebug dbgE (.GameError (ErrorDetail.new msg inner))).data ∧
      (rustDebugOption dbgE inner).data <:+:
        (Error.fmtDebug dbgE (.GameError (ErrorDetail.new msg inner))).data) ∧
     (rustEscapeDebug msg <:+:
        (Error.fmtDebug dbgE (.ParserError (ErrorDetail.new msg inner))).data ∧
      (rustDebugOption dbgE inner).data <:+:
        (Error.fmtDebug dbgE (.ParserError (ErrorDetail.new msg inner))).data) ∧
     (rustEscapeDebug msg <:+:
        (Error.fmtDebug dbgE (.ProtocolError (ErrorDetail.new msg inner))).data ∧
      (rustDebugOption dbgE inner).data <:+:
        (Error.fmtDebug dbgE (.ProtocolError (ErrorDetail.new msg inner))).data) ∧
     (rustEscapeDebug msg <:+:
        (Error.fmtDebug dbgE (.QueryError (ErrorDetail.new msg inner))).data ∧
      (rustDebugOption dbgE inner).data <:+:
        (Error.fmtDebug dbgE (.QueryError (ErrorDetail.new msg inner))).data) ∧
     (rustEscapeDebug msg <:+:
        (Error.fmtDebug dbgE (.ResponseError (ErrorDetail.new msg inner))).data ∧
      (rustDebugOption dbgE inner).data <:+:
        (Error.fmtDebug dbgE (.ResponseError (ErrorDetail.new msg inner))).data)) ∧
    ((∀ c ∈ msg.data, rustEscapeDebugChar c = [c]) →
      msg.data <:+: (Error.fmtDebug dbgE (.GameError (ErrorDetail.new msg inner))).data ∧
      msg.data <:+: (Error.fmtDebug dbgE (.ParserError (ErrorDetail.new msg inner))).data ∧
      msg.data <:+: (Error.fmtDebug dbgE (.ProtocolError (ErrorDetail.new msg inner))).data ∧
      msg.data <:+: (Error.fmtDebug dbgE (.QueryError (ErrorDetail.new msg inner))).data ∧
      msg.data <:+: (Error.fmtDebug dbgE (.ResponseError (ErrorDetail.new msg inner))).data) := by
  refine ⟨rfl, rfl,
    ⟨⟨message_infix_debugStructDetail dbgE "GameError" (ErrorDetail.new msg inner),
      inner_infix_debugStructDetail dbgE "GameError" (ErrorDetail.new msg inner)⟩,
     ⟨message_infix_debugStructDetail dbgE "ParserError" (ErrorDetail.new msg inner),
      inner_infix_debugStructDetail dbgE "ParserError" (ErrorDetail.new msg inner)⟩,
     ⟨message_infix_debugStructDetail dbgE "ProtocolError" (ErrorDetail.new msg inner),
      inner_infix_debugStructDetail dbgE "ProtocolError" (ErrorDetail.new msg inner)⟩,
     ⟨message_infix_debugStructDetail dbgE "QueryError" (ErrorDetail.new msg inner),
      inner_infix_debugStructDetail dbgE "QueryError" (ErrorDetail.new msg inner)⟩,
     ⟨message_infix_debugStructDetail dbgE "ResponseError" (ErrorDetail.new msg inner),
      inner_infix_debugStructDetail dbgE "ResponseError" (ErrorDetail.new msg inner)⟩⟩, ?_⟩
  intro h
  have hesc : rustEscapeDebug msg = msg.data := rustEscapeDebug_eq_self msg h
  exact ⟨hesc ▸ message_infix_debugStructDetail dbgE "GameError" (ErrorDetail.new msg inner),
    hesc ▸ message_infix_debugStructDetail dbgE "ParserError" (ErrorDetail.new msg inner),
    hesc ▸ message_infix_debugStructDetail dbgE "ProtocolError" (ErrorDetail.new msg inner),
    hesc ▸ message_infix_debugStructDetail dbgE "QueryError" (ErrorDetail.new msg inner),
    hesc ▸ message_infix_debugStructDetail dbgE "ResponseError" (ErrorDetail.new msg inner)⟩

/-- Witness for the amended C8: the message boom has no Debug-escaped
characters, so the Debug output of the wrapping GameError contains the
original message text. -/
theorem errorDetail_new_total_preserving_wit :
    (∀ c ∈ ("boom").data, rustEscapeDebugChar c = [c]) ∧
    ("boom").data <:+:
      (Error.fmtDebug (fun n : Nat => toString n)
        (.GameError (ErrorDetail.new "boom" (some 42)))).data :=
  ⟨by decide,
   ((errorDetail_new_total_preserving (fun n : Nat => toString n) "boom"
      (some 42)).2.2.2 (by decide)).1⟩

/-- C9: the `standards` and `traits` drafts of the Parser abstraction are
behaviourally equivalent error-wrapping shims: for the same outcome of the
underlying raw method, the two public methods produce equal results (same
bytes or Response on success; on failure the same ParserError with the
identical message string and the original error as Some inner payload). -/
theorem standards_traits_parser_equiv {Q R SE DE : Type}
    (ps : Standards.Parser Q R SE DE) (pt : Traits.Parser Q R SE DE)
    (q : Q) (data : Cursor)
    (hs : ps._serialize_query q = pt._serialize_query q)
    (hd : ps._deserialize_response data = pt._deserialize_response data) :
    ps.serialize_query q = pt.serialize_query q ∧
    ps.deserialize_response data = pt.deserialize_response data := by
  constructor
  · unfold Standards.Parser.serialize_query Traits.Parser.serialize_query
    rw [hs]
  · unfold Standards.Parser.deserialize_response Traits.Parser.deserialize_response
    rw [hd]

/-- Witness for C9 on the concrete stubs `sParserFails` and `tParserFails`,
which share the same raw outcomes. -/
theorem standards_traits_parser_equiv_wit :
    sParserFails.serialize_query () = tParserFails.serialize_query () ∧
    sParserFails.deserialize_response ⟨[], 0⟩ = tParserFails.deserialize_response ⟨[], 0⟩ :=
  standards_traits_parser_equiv sParserFails tParserFails () ⟨[], 0⟩ rfl rfl
